import Mathlib

/-!
Shallow embedding of the Python client of TopoHedralLabs/topohedral-viewer
(src/python/topohedral_viewer_py/client.py) and theorems checking the
specification claims about it.

The Python runtime and libraries are modelled explicitly:
the process environment is a function from variable names to optional
strings (os.getenv), the filesystem location of the module is the
parameter base_path (os.path.dirname of the module file), OS process
creation is recorded as a list of spawn calls, and the grpc network is a
function telling for each target address whether a server listens there.
-/

namespace TopohedralViewer

/-- Vec2 protobuf message as used by client.py: fields x and y. -/
structure Vec2 where
  x : Int
  y : Int
deriving Repr, DecidableEq

/-- AxesDescriptor protobuf message as constructed in client.py. -/
structure AxesDescriptor where
  origin : Vec2
  x_axis : Vec2
  y_axis : Vec2
  pos_len : Int
  neg_len : Int
deriving Repr, DecidableEq

/-- Square descriptor message; client.py forwards it without inspecting any
field, so its contents are kept abstract. -/
structure SquareDescriptor where
  payload : Int
deriving Repr, DecidableEq

/-- Circle descriptor message; forwarded opaquely by client.py. -/
structure CircleDescriptor where
  payload : Int
deriving Repr, DecidableEq

/-- Runtime errors the embedded code can surface: TypeError from a bad
call arity, AttributeError from an attribute access on None, and the
grpc channel-level unavailability error surfaced by a remote call against
an endpoint with no listener. -/
inductive PyErr where
  | typeError
  | attributeErrorNone
  | channelUnavailable
deriving Repr, DecidableEq

/-- A child process handle as returned by subprocess.Popen: the pid handed
out by the OS and the argument vector actually passed to the spawn. -/
structure Proc where
  pid : Nat
  argv : List String
deriving Repr, DecidableEq

/-- A grpc channel handle as produced by grpc.insecure_channel: the target
address string and whether the channel is encrypted. -/
structure Channel where
  target : String
  secure : Bool
deriving Repr, DecidableEq

/-- A StateServiceStub bound to a channel. -/
structure Stub where
  channel : Channel
deriving Repr, DecidableEq

/-- The fields of a Client2D instance, as assigned in Client2D.__init__. -/
structure Client where
  server_executable_path : String
  server_process : Option Proc
  channel : Option Channel
  stub : Option Stub
  port : Int
deriving Repr, DecidableEq

/-- Python truthiness of an os.getenv result: None is falsy, a string is
truthy exactly when it is non-empty. -/
def truthy : Option String → Bool
  | none => false
  | some s => !s.isEmpty

/-- os.path.join restricted to the relative components used by client.py:
each part is appended after a path separator. -/
def path_join (base : String) (parts : List String) : String :=
  parts.foldl (fun acc part => acc ++ "/" ++ part) base

/-- Client2D._find_executable.  base_path abstracts
os.path.dirname of the module file (the install location of the client
package) and getenv the process environment.  A truthy
TOPOHEDRAL_VIEWER_DEV selects the debug build path, otherwise the release
build path; both are joined onto base_path.  Pure: no filesystem access. -/
def find_executable (base_path : String) (getenv : String → Option String) : String :=
  let is_dev := getenv "TOPOHEDRAL_VIEWER_DEV"
  if truthy is_dev then
    path_join base_path ["..", "..", "..", "target", "debug", "topohedral-viewer-rpc"]
  else
    path_join base_path ["..", "target", "release", "topohedral-viewer-rpc"]

/-- Client2D.__init__: resolves the executable path immediately and leaves
process handle, channel and stub absent. -/
def Client2D_init (base_path : String) (getenv : String → Option String) (port : Int) : Client :=
  { server_executable_path := find_executable base_path getenv
    server_process := none
    channel := none
    stub := none
    port := port }

/-- Evaluating the call Client2D(...) on a list of positional arguments.
Client2D.__init__ is declared (self, port = 50051), so zero or one
positional argument succeeds and two or more raise TypeError before any
instance is constructed. -/
def Client2D_call (base_path : String) (getenv : String → Option String) (args : List Int) : Except PyErr Client :=
  match args with
  | [] => .ok (Client2D_init base_path getenv 50051)
  | [p] => .ok (Client2D_init base_path getenv p)
  | _ => .error .typeError

/-- Record of one subprocess.Popen invocation: the argv handed to the OS. -/
structure SpawnCall where
  argv : List String
deriving Repr, DecidableEq

/-- The local list built (and never used) by Client2D.start_server: the
freshly resolved executable path, the literal tag d2, the literal
with-port, and the requested port rendered as a string. -/
def start_server_exec_list (base_path : String) (getenv : String → Option String) (port : Int) : List String :=
  [find_executable base_path getenv, "d2", "with-port", toString port]

/-- Client2D.start_server: builds the exec argument list, then calls
subprocess.Popen on the single-element list holding the stored bare
executable path — the exec list is discarded — and stores the new process
handle.  pid abstracts the OS pid of the spawned child.  Returns the
updated client together with the spawn calls made. -/
def start_server (base_path : String) (getenv : String → Option String) (c : Client) (port : Int) (pid : Nat) : Client × List SpawnCall :=
  let _exec := start_server_exec_list base_path getenv port
  let child : Proc := { pid := pid, argv := [c.server_executable_path] }
  ({ c with server_process := some child }, [{ argv := [c.server_executable_path] }])

/-- Observable actions performed on a child process handle. -/
inductive ProcAction where
  | terminate (pid : Nat)
  | wait (pid : Nat)
deriving Repr, DecidableEq

/-- Client2D.stop_server: when a process handle is stored, terminate it and
wait for it to exit; otherwise do nothing.  No field of the client is
written in either branch. -/
def stop_server (c : Client) : Client × List ProcAction :=
  match c.server_process with
  | none => (c, [])
  | some p => (c, [ProcAction.terminate p.pid, ProcAction.wait p.pid])

/-- Client2D.connect: creates an insecure grpc channel to localhost at the
configured port and binds a StateServiceStub to it.  grpc.insecure_channel
constructs its channel lazily and contacts no endpoint — grpc channels
attempt the connection on the first remote call — so this function is total
and consults no listener. -/
def connect (c : Client) : Client :=
  let ch : Channel := { target := "localhost:" ++ toString c.port, secure := false }
  { c with channel := some ch, stub := some { channel := ch } }

/-- A request issued through the StateServiceStub. -/
inductive Request where
  | addAxes (d : AxesDescriptor)
  | addSquare (d : SquareDescriptor)
  | addCircle (d : CircleDescriptor)
deriving Repr, DecidableEq

/-- The reply to a successfully delivered request.  The reply schema lives
in the generated protobuf code outside client.py; the reply records which
request it answers. -/
structure Reply where
  answered : Request
deriving Repr, DecidableEq

/-- Issuing one remote call on a stub.  listening tells for each target
address whether a server is listening there; a call on a channel whose
target has no listener surfaces the channel-level unavailability error. -/
def stub_call (listening : String → Bool) (s : Stub) (r : Request) : Except PyErr Reply :=
  if listening s.channel.target then .ok { answered := r } else .error .channelUnavailable

/-- Client2D.add_axes: returns self.stub.AddAxes(axes_descriptor).  When
stub is None the attribute access itself raises AttributeError. -/
def add_axes (listening : String → Bool) (c : Client) (d : AxesDescriptor) : Except PyErr Reply :=
  match c.stub with
  | none => .error .attributeErrorNone
  | some s => stub_call listening s (.addAxes d)

/-- Client2D.add_square: returns self.stub.AddSquare(square_descriptor). -/
def add_square (listening : String → Bool) (c : Client) (d : SquareDescriptor) : Except PyErr Reply :=
  match c.stub with
  | none => .error .attributeErrorNone
  | some s => stub_call listening s (.addSquare d)

/-- Client2D.add_circle: returns self.stub.AddCircle(circle_descriptor). -/
def add_circle (listening : String → Bool) (c : Client) (d : CircleDescriptor) : Except PyErr Reply :=
  match c.stub with
  | none => .error .attributeErrorNone
  | some s => stub_call listening s (.addCircle d)

/-- Client2D.add_global_axes: builds the fixed global-axes descriptor and
forwards it through add_axes, returning the reply. -/
def add_global_axes (listening : String → Bool) (c : Client) : Except PyErr Reply :=
  let origin : Vec2 := { x := 0, y := 0 }
  let x_axis : Vec2 := { x := 1, y := 0 }
  let y_axis : Vec2 := { x := 0, y := 1 }
  let request : AxesDescriptor :=
    { origin := origin
      x_axis := x_axis
      y_axis := y_axis
      pos_len := 100
      neg_len := 100 }
  add_axes listening c request

/-- The outcome of launch_server: the returned client (None when no branch
built one) together with every spawn call performed on the way. -/
structure LaunchResult where
  client : Option Client
  spawns : List SpawnCall
deriving Repr, DecidableEq

/-- Module-level launch_server.  client starts as None; when dim == 2 the
code evaluates Client2D(dim, port) — two positional arguments against
Client2D.__init__(self, port = 50051) — then client.start_server() with the
default port 50051 and client.connect(); when dim == 3 the branch body is
pass; finally client is returned.  Any error raised on the way propagates. -/
def launch_server (base_path : String) (getenv : String → Option String) (pid : Nat) (dim : Int) (port : Int) : Except PyErr LaunchResult :=
  if dim = 2 then
    match Client2D_call base_path getenv [dim, port] with
    | .error e => .error e
    | .ok cl =>
      let started := start_server base_path getenv cl 50051 pid
      let connected := connect started.fst
      .ok { client := some connected, spawns := started.snd }
  else if dim = 3 then
    .ok { client := none, spawns := [] }
  else
    .ok { client := none, spawns := [] }

/-- Joining the release-build components produces the release path string. -/
theorem path_join_release (base : String) :
    path_join base ["..", "target", "release", "topohedral-viewer-rpc"] =
      base ++ "/../target/release/topohedral-viewer-rpc" := by
  simp only [path_join, List.foldl, String.append_assoc]
  rfl

/-- Joining the debug-build components produces the debug path string. -/
theorem path_join_debug (base : String) :
    path_join base ["..", "..", "..", "target", "debug", "topohedral-viewer-rpc"] =
      base ++ "/../../../target/debug/topohedral-viewer-rpc" := by
  simp only [path_join, List.foldl, String.append_assoc]
  rfl

/-- C1: the claim states that launch_server(2, port) constructs a Client,
starts the server, connects, and returns the ready client in the Connected
state with stub and channel non-absent.  What the code actually does at
dim = 2, port = 50051: the call Client2D(dim, port) passes two positional
arguments to Client2D.__init__(self, port = 50051) and raises TypeError
before any client is constructed, so no Connected client is returned. -/
theorem c1_launch_server_dim2_raises_type_error :
    launch_server "pkg" (fun _ => none) 7 2 50051 = .error .typeError := rfl

/-- C2: start_server performs exactly one spawn call, and the argv actually
handed to the OS is the single-element list holding the stored bare
executable path; the constructed exec list — resolved path, d2, with-port,
the port string — is discarded, so the spawned argv does not depend on the
requested port at all. -/
theorem c2_start_server_spawns_bare_path_once (base_path : String)
    (getenv : String → Option String) (c : Client) (port port2 : Int) (pid : Nat) :
    (start_server base_path getenv c port pid).snd = [{ argv := [c.server_executable_path] }] ∧
    (start_server base_path getenv c port pid).snd.length = 1 ∧
    (start_server base_path getenv c port pid).fst.server_process =
      some { pid := pid, argv := [c.server_executable_path] } ∧
    start_server_exec_list base_path getenv port =
      [find_executable base_path getenv, "d2", "with-port", toString port] ∧
    (start_server base_path getenv c port pid).snd =
      (start_server base_path getenv c port2 pid).snd :=
  ⟨rfl, rfl, rfl, rfl, rfl⟩

/-- C3: on any client whose stub is absent — connect() has not succeeded,
as for a freshly constructed client — each of add_axes, add_square and
add_circle fails with the AttributeError raised by the attribute access on
the None stub; since the result is an error, no default value is returned. -/
theorem c3_add_methods_fail_without_connect (listening : String → Bool)
    (c : Client) (h : c.stub = none) (d : AxesDescriptor) (s : SquareDescriptor)
    (k : CircleDescriptor) :
    add_axes listening c d = .error .attributeErrorNone ∧
    add_square listening c s = .error .attributeErrorNone ∧
    add_circle listening c k = .error .attributeErrorNone := by
  refine ⟨?_, ?_, ?_⟩ <;> simp [add_axes, add_square, add_circle, h]

/-- Witness for C3: a freshly constructed client has no stub, and add_axes
on it fails with the AttributeError. -/
theorem c3_add_methods_fail_witness :
    add_axes (fun _ => true) (Client2D_init "pkg" (fun _ => none) 50051)
        { origin := { x := 0, y := 0 }, x_axis := { x := 1, y := 0 },
          y_axis := { x := 0, y := 1 }, pos_len := 100, neg_len := 100 } =
      .error .attributeErrorNone :=
  (c3_add_methods_fail_without_connect (fun _ => true)
    (Client2D_init "pkg" (fun _ => none) 50051) rfl
    { origin := { x := 0, y := 0 }, x_axis := { x := 1, y := 0 },
      y_axis := { x := 0, y := 1 }, pos_len := 100, neg_len := 100 }
    { payload := 0 } { payload := 0 }).1

/-- C4: when TOPOHEDRAL_VIEWER_DEV holds a truthy value the resolved
executable is the development (debug) build path, and when it is falsy or
unset the release build path; both are computed relative to base_path, the
install location of the client package. -/
theorem c4_find_executable_env_selects_path (base_path : String)
    (getenv : String → Option String) :
    (truthy (getenv "TOPOHEDRAL_VIEWER_DEV") = true →
      find_executable base_path getenv =
        base_path ++ "/../../../target/debug/topohedral-viewer-rpc") ∧
    (truthy (getenv "TOPOHEDRAL_VIEWER_DEV") = false →
      find_executable base_path getenv =
        base_path ++ "/../target/release/topohedral-viewer-rpc") := by
  constructor <;> intro h <;>
    simp [find_executable, h, path_join_release, path_join_debug]

/-- Witness for C4: with the flag set to the truthy value 1 the debug path
is resolved, and with the flag unset the release path is resolved. -/
theorem c4_find_executable_witness :
    find_executable "pkg" (fun _ => some "1") =
        "pkg" ++ "/../../../target/debug/topohedral-viewer-rpc" ∧
    find_executable "pkg" (fun _ => none) =
        "pkg" ++ "/../target/release/topohedral-viewer-rpc" :=
  ⟨(c4_find_executable_env_selects_path "pkg" (fun _ => some "1")).1 rfl,
   (c4_find_executable_env_selects_path "pkg" (fun _ => none)).2 rfl⟩

/-- C5: add_global_axes coincides, on every client and every network, with
add_axes applied to exactly the descriptor with origin (0,0), x_axis (1,0),
y_axis (0,1), pos_len 100 and neg_len 100; no other descriptor is produced
and the reply of that add_axes call is returned unchanged. -/
theorem c5_add_global_axes_fixed_descriptor (listening : String → Bool) (c : Client) :
    add_global_axes listening c =
      add_axes listening c
        { origin := { x := 0, y := 0 }, x_axis := { x := 1, y := 0 },
          y_axis := { x := 0, y := 1 }, pos_len := 100, neg_len := 100 } := rfl

/-- C6 counterexample: the claim states that connect() fails with a
channel-level error when no listener is present at the port.  On a freshly
constructed client with no listener anywhere, connect() does not fail: it
returns the client with the insecure channel and the bound stub both
present, because grpc.insecure_channel builds the channel without
contacting the endpoint. -/
theorem c6_connect_counterexample :
    (connect (Client2D_init "pkg" (fun _ => none) 50051)).channel =
        some { target := "localhost:50051", secure := false } ∧
    (connect (Client2D_init "pkg" (fun _ => none) 50051)).stub =
        some { channel := { target := "localhost:50051", secure := false } } :=
  ⟨rfl, rfl⟩

/-- C6 amended: connect() opens an insecure, unencrypted channel to
localhost at the port the client was configured with and binds the stub to
that channel; connect() itself does not fail when no listener is present —
the channel-level error surfaces when a remote call is attempted against
the non-listening endpoint. -/
theorem c6_connect_insecure_error_surfaces_on_call (listening : String → Bool)
    (c : Client) (d : AxesDescriptor)
    (h : listening ("localhost:" ++ toString c.port) = false) :
    (connect c).channel =
        some { target := "localhost:" ++ toString c.port, secure := false } ∧
    (connect c).stub =
        some { channel := { target := "localhost:" ++ toString c.port, secure := false } } ∧
    add_axes listening (connect c) d = .error .channelUnavailable := by
  refine ⟨rfl, rfl, ?_⟩
  simp [add_axes, connect, stub_call, h]

/-- Witness for the amended C6 at a concrete client with no listener. -/
theorem c6_connect_witness :
    add_axes (fun _ => false) (connect (Client2D_init "pkg" (fun _ => none) 50051))
        { origin := { x := 0, y := 0 }, x_axis := { x := 1, y := 0 },
          y_axis := { x := 0, y := 1 }, pos_len := 100, neg_len := 100 } =
      .error .channelUnavailable :=
  (c6_connect_insecure_error_surfaces_on_call (fun _ => false)
    (Client2D_init "pkg" (fun _ => none) 50051)
    { origin := { x := 0, y := 0 }, x_axis := { x := 1, y := 0 },
      y_axis := { x := 0, y := 1 }, pos_len := 100, neg_len := 100 } rfl).2.2

/-- C7: stop_server on a client with no stored process handle is a no-op —
it performs no process action and returns the client unchanged, and the
none branch is total so nothing is raised; on a client holding a process
handle it requests termination of that process and then waits on it. -/
theorem c7_stop_server_noop_or_terminate_wait (c c2 : Client) (p : Proc)
    (h : c.server_process = none) (h2 : c2.server_process = some p) :
    stop_server c = (c, []) ∧
    stop_server c2 = (c2, [ProcAction.terminate p.pid, ProcAction.wait p.pid]) := by
  constructor
  · simp [stop_server, h]
  · simp [stop_server, h2]

/-- Witness for C7: a freshly constructed client never started a server and
stop_server on it returns it unchanged with no action. -/
theorem c7_stop_server_witness :
    stop_server (Client2D_init "pkg" (fun _ => none) 50051) =
      (Client2D_init "pkg" (fun _ => none) 50051, []) :=
  (c7_stop_server_noop_or_terminate_wait
    (Client2D_init "pkg" (fun _ => none) 50051)
    { Client2D_init "pkg" (fun _ => none) 50051 with
        server_process := some { pid := 9, argv := ["x"] } }
    { pid := 9, argv := ["x"] } rfl rfl).1

/-- C8: find_executable is total with no side effect — a pure function into
strings — and for every environment and every install location its value is
one of the two path strings, the debug path or the release path, even when
that path names nothing on disk (no filesystem check is performed). -/
theorem c8_find_executable_total (base_path : String) (getenv : String → Option String) :
    find_executable base_path getenv =
        base_path ++ "/../../../target/debug/topohedral-viewer-rpc" ∨
    find_executable base_path getenv =
        base_path ++ "/../target/release/topohedral-viewer-rpc" := by
  by_cases h : truthy (getenv "TOPOHEDRAL_VIEWER_DEV") = true
  · left
    simp [find_executable, h, path_join_debug]
  · right
    simp only [Bool.not_eq_true] at h
    simp [find_executable, h, path_join_release]

/-- C9: for every dim other than 2 — the nominally supported dim = 3
included — launch_server returns None having constructed no client,
performed no spawn and opened no channel. -/
theorem c9_launch_server_non2_returns_none (base_path : String)
    (getenv : String → Option String) (pid : Nat) (dim port : Int) (h : dim ≠ 2) :
    launch_server base_path getenv pid dim port = .ok { client := none, spawns := [] } := by
  unfold launch_server
  rw [if_neg h]
  by_cases h3 : dim = 3 <;> simp [h3]

/-- Witness for C9 at dim = 3. -/
theorem c9_launch_server_witness :
    launch_server "pkg" (fun _ => none) 7 3 50051 = .ok { client := none, spawns := [] } :=
  c9_launch_server_non2_returns_none "pkg" (fun _ => none) 7 3 50051 (by decide)

/-- C10: stop_server writes no field of the client: the client it returns
is the argument itself, so server_process still holds the (possibly already
terminated) handle, and server_executable_path, channel, stub and port are
unchanged; a second stop_server call therefore acts on the very same stored
handle and issues the same actions again. -/
theorem c10_stop_server_frame (c : Client) :
    (stop_server c).fst = c ∧
    (stop_server c).fst.server_process = c.server_process ∧
    (stop_server c).fst.server_executable_path = c.server_executable_path ∧
    (stop_server c).fst.channel = c.channel ∧
    (stop_server c).fst.stub = c.stub ∧
    (stop_server c).fst.port = c.port ∧
    stop_server ((stop_server c).fst) = stop_server c := by
  have hfst : (stop_server c).fst = c := by
    unfold stop_server
    rcases c.server_process with _ | p <;> rfl
  exact ⟨hfst, by rw [hfst], by rw [hfst], by rw [hfst], by rw [hfst],
    by rw [hfst], by rw [hfst]⟩

end TopohedralViewer
